import Mathlib

/-
Verification of the plugin lifecycle manager
(pkg/plugins/manager/store.go).

The manager orchestrates installing, updating and removing external
plugins.  Its collaborators (plugin repository client, plugin
filesystem, loader, the unregister-and-stop operation, the Go standard
library's filepath.Rel and the semver constraint parser) are outside
the translated file; they are modelled as oracle functions collected in
an `Env` record.  Manager state is the registry contents plus an
ordered trace of collaborator calls, so that ordering and
no-side-effect properties can be stated.
-/

namespace PluginManager

/-- The closed set of plugin kinds.  Modelled from the spec: `Type` is
"one of a small closed set of plugin kinds" and the empty type filter
expands to "the full known type enumeration" (plugins.PluginTypes). -/
inductive PluginType where
  | dataSource
  | panel
  | app
  | renderer
  | secretsManager
deriving Repr, DecidableEq

/-- Modelled from the spec: the full known type enumeration
(plugins.PluginTypes), listing every member of the closed set. -/
def PluginTypes : List PluginType :=
  [.dataSource, .panel, .app, .renderer, .secretsManager]

/-- Plugin.Info, of which only Version is used by the manager. -/
structure PluginInfo where
  version : String
deriving Repr, DecidableEq

/-- An installed plugin as the manager sees it.  Modelled from the spec
for the fields the manager reads: `ID`, `Info.Version`, `PluginDir`,
`Type`, the provenance flag `IsExternalPlugin` (core vs external) and
the soft-delete marker `IsDecommissioned`. -/
structure Plugin where
  id : String
  info : PluginInfo
  pluginDir : String
  type : PluginType
  isExternalPlugin : Bool
  isDecommissioned : Bool
deriving Repr, DecidableEq

/-- Read-only projection of a Plugin (plugins.PluginDTO), derived on
demand by ToDTO. -/
structure PluginDTO where
  id : String
  info : PluginInfo
  pluginDir : String
  type : PluginType
deriving Repr, DecidableEq

/-- Plugin.ToDTO: the DTO projection. -/
def Plugin.toDTO (p : Plugin) : PluginDTO :=
  { id := p.id, info := p.info, pluginDir := p.pluginDir, type := p.type }

/-- repository.PluginDownloadOptions: the fields the manager reads. -/
structure PluginDownloadOptions where
  version : String
  pluginZipURL : String
deriving Repr, DecidableEq

/-- repository.PluginArchive: downloaded bytes (opaque token). -/
structure PluginArchive where
  file : String
deriving Repr, DecidableEq

/-- A declared dependency descriptor {ID, Version}. -/
structure Dependency where
  id : String
  version : String
deriving Repr, DecidableEq

/-- Result of extracting an archive: the extraction path plus the
declared dependency list. -/
structure ExtractedArchive where
  path : String
  dependencies : List Dependency
deriving Repr, DecidableEq

/-- plugins.CompatabilityOpts (spelling as in the source). -/
structure CompatabilityOpts where
  grafanaVersion : String
deriving Repr, DecidableEq

/-- The error values the manager returns.  `wrapped msg inner` models
fmt.Errorf("%v: %w", msg, err); `updateOptionsUnknown` models
fmt.Errorf("could not determine update options for %s", pluginID);
`external` stands for an arbitrary collaborator error. -/
inductive Err where
  | invalidVersionFormat
  | installCorePlugin
  | uninstallCorePlugin
  | pluginNotInstalled
  | uninstallOutsideOfPluginDir
  | duplicatePlugin (pluginID existingPluginDir : String)
  | updateOptionsUnknown (pluginID : String)
  | wrapped (msg : String) (inner : Err)
  | external (msg : String)
deriving Repr, DecidableEq

/-- One collaborator call, recorded in order of occurrence. -/
inductive Event where
  | getDownloadOptions (pluginID version : String)
  | getArchive (pluginID version : String)
  | getArchiveByURL (url : String)
  | fsAdd (pluginID : String)
  | fsRemove (pluginDir : String)
  | unregister (pluginID : String)
  | load (paths : List String)
deriving Repr, DecidableEq

/-- Whether an event is a plugin-directory deletion. -/
def Event.isFsRemove : Event → Bool
  | .fsRemove _ => true
  | _ => false

/-- Manager state: the registry contents plus the trace of collaborator
calls made so far. -/
structure MState where
  registry : List Plugin
  trace : List Event
deriving Repr, DecidableEq

/-- Append a collaborator-call event to the trace. -/
def logEvent (st : MState) (ev : Event) : MState :=
  { st with trace := st.trace ++ [ev] }

/-- The collaborators of the manager, as oracles.
`pluginsPath` is m.cfg.PluginsPath.
`semverConstraintOk v` models `semver.NewConstraint(v)` succeeding.
`rel base targ` models filepath.Rel (none = error).
`unregisterAndStopErr` — modelled from the spec: m.unregisterAndStop
"unregisters the plugin from the registry and stops any running
instance; propagate failure"; the oracle gives its failure (if any),
and on success the registry entry is removed (see `remove`).
`loadPlugins` — modelled from the spec: the Loader parses the given
paths and registers the result into the registry, or fails. -/
structure Env where
  pluginsPath : String
  semverConstraintOk : String → Bool
  getPluginDownloadOptions : String → String → String → Except Err PluginDownloadOptions
  getPluginArchive : String → String → String → Except Err PluginArchive
  getPluginArchiveByURL : String → String → Except Err PluginArchive
  fsAdd : String → String → String → Except Err ExtractedArchive
  fsRemove : String → Except Err Unit
  rel : String → String → Option String
  unregisterAndStopErr : Plugin → Option Err
  loadPlugins : List String → List Plugin → Except Err (List Plugin)

/-- isSemVerExpr from store.go: the empty string is not a valid
expression; otherwise validity is constraint-parser success. -/
def isSemVerExpr (env : Env) (version : String) : Bool :=
  if version = "" then false else env.semverConstraintOk version

/-- m.pluginRegistry.Plugin(ctx, id).  Modelled from the spec: the
registry is an in-memory index keyed by plugin identifier; lookup
returns the entry with the given id, if present. -/
def registryPlugin (reg : List Plugin) (pluginID : String) : Option Plugin :=
  reg.find? (fun p => p.id = pluginID)

/-- PluginManager.plugin: registry lookup filtering out decommissioned
entries (returns not-found for a decommissioned plugin). -/
def mgrPlugin (reg : List Plugin) (pluginID : String) : Option Plugin :=
  match registryPlugin reg pluginID with
  | none => none
  | some p => if p.isDecommissioned then none else some p

/-- PluginManager.availablePlugins: all non-decommissioned plugins. -/
def availablePlugins (reg : List Plugin) : List Plugin :=
  reg.filter (fun p => p.isDecommissioned = false)

/-- PluginManager.Plugins: if no types are passed, assume all
(plugins.PluginTypes); then return the DTOs of the available plugins
whose type is in the requested set. -/
def pluginsList (reg : List Plugin) (pluginTypes : List PluginType) : List PluginDTO :=
  let requestedTypes := if pluginTypes.isEmpty then PluginTypes else pluginTypes
  ((availablePlugins reg).filter (fun p => requestedTypes.contains p.type)).map Plugin.toDTO

/-- PluginManager.Plugin: DTO of a non-decommissioned plugin plus a
found flag. -/
def mgrPluginDTO (reg : List Plugin) (pluginID : String) : Option PluginDTO :=
  (mgrPlugin reg pluginID).map Plugin.toDTO

/-- string(filepath.Separator) on the target platform. -/
def separatorString : String := "/"

/-- The prefix tested by Remove: ".." followed by the separator. -/
def dotDotSep : String := ".." ++ separatorString

/-- strings.HasPrefix(s, pre). -/
def hasPrefix (s pre : String) : Bool :=
  pre.data.isPrefixOf s.data

/-- Registry effect of a successful unregisterAndStop: drop the entry
with the plugin's id.  Modelled from the spec: "unregister the plugin
from the registry". -/
def unregisterReg (reg : List Plugin) (pluginID : String) : List Plugin :=
  reg.filter (fun q => ¬ (q.id = pluginID))

/-- PluginManager.Remove from store.go: look up the non-decommissioned
plugin (else ErrPluginNotInstalled), refuse core plugins, refuse a
plugin directory whose path relative to the plugins root errors or
starts with "../", then unregister-and-stop and finally delete the
plugin directory. -/
def remove (env : Env) (st : MState) (pluginID : String) : Except Err Unit × MState :=
  match mgrPlugin st.registry pluginID with
  | none => (.error .pluginNotInstalled, st)
  | some plugin =>
    if plugin.isExternalPlugin = false then (.error .uninstallCorePlugin, st)
    else
      match env.rel env.pluginsPath plugin.pluginDir with
      | none => (.error .uninstallOutsideOfPluginDir, st)
      | some path =>
        if hasPrefix path dotDotSep then (.error .uninstallOutsideOfPluginDir, st)
        else
          let st1 := logEvent st (.unregister plugin.id)
          match env.unregisterAndStopErr plugin with
          | some e => (.error e, st1)
          | none =>
            let st2 := { st1 with registry := unregisterReg st1.registry plugin.id }
            let st3 := logEvent st2 (.fsRemove plugin.pluginDir)
            match env.fsRemove plugin.pluginDir with
            | .error e => (.error e, st3)
            | .ok _ => (.ok (), st3)

/-- The dependency loop of Add: for each declared dependency, fetch its
archive (a failure is wrapped naming the dependency) and extract it (a
failure is returned as-is), accumulating the paths to scan. -/
def fetchDeps (env : Env) (opts : CompatabilityOpts) :
    MState → List Dependency → List String → Except Err (List String) × MState
  | st, [], pathsToScan => (.ok pathsToScan, st)
  | st, dep :: rest, pathsToScan =>
    let st1 := logEvent st (.getArchive dep.id dep.version)
    match env.getPluginArchive dep.id dep.version opts.grafanaVersion with
    | .error e =>
      (.error (.wrapped ("failed to download plugin " ++ dep.id ++ " from repository") e), st1)
    | .ok d =>
      let st2 := logEvent st1 (.fsAdd dep.id)
      match env.fsAdd d.file dep.id env.pluginsPath with
      | .error e => (.error e, st2)
      | .ok depArchive => fetchDeps env opts st2 rest (pathsToScan ++ [depArchive.path])

/-- The tail of Add shared by all branches once the plugin archive is
in hand: extract it into the plugins root, fetch and extract every
declared dependency, then load all collected paths in one batch. -/
def installArchive (env : Env) (st : MState) (pluginID : String) (opts : CompatabilityOpts)
    (pluginArchive : PluginArchive) : Except Err Unit × MState :=
  let st1 := logEvent st (.fsAdd pluginID)
  match env.fsAdd pluginArchive.file pluginID env.pluginsPath with
  | .error e => (.error e, st1)
  | .ok extractedArchive =>
    match fetchDeps env opts st1 extractedArchive.dependencies [extractedArchive.path] with
    | (.error e, st2) => (.error e, st2)
    | (.ok pathsToScan, st2) =>
      let st3 := logEvent st2 (.load pathsToScan)
      match env.loadPlugins pathsToScan st2.registry with
      | .error e => (.error e, st3)
      | .ok reg => (.ok (), { st3 with registry := reg })

/-- The fresh-install branch of Add (plugin not present): fetch the
archive by (id, version) and install it. -/
def addFresh (env : Env) (st : MState) (pluginID version : String)
    (opts : CompatabilityOpts) : Except Err Unit × MState :=
  let st1 := logEvent st (.getArchive pluginID version)
  match env.getPluginArchive pluginID version opts.grafanaVersion with
  | .error e => (.error e, st1)
  | .ok pluginArchive => installArchive env st1 pluginID opts pluginArchive

/-- The body of Add after the version-format check: the update branch
when a non-decommissioned plugin with this id is registered (core
guard, duplicate-version guards, download-options resolution, removal
of the existing installation, fetch by URL or by (id, resolved
version)), else the fresh-install branch. -/
def addChecked (env : Env) (st : MState) (pluginID version : String)
    (opts : CompatabilityOpts) : Except Err Unit × MState :=
  match mgrPlugin st.registry pluginID with
  | some plugin =>
    if plugin.isExternalPlugin = false then (.error .installCorePlugin, st)
    else if plugin.info.version = version then
      (.error (.duplicatePlugin plugin.id plugin.pluginDir), st)
    else
      let st1 := logEvent st (.getDownloadOptions pluginID version)
      match env.getPluginDownloadOptions pluginID version opts.grafanaVersion with
      | .error e => (.error e, st1)
      | .ok dlOpts =>
        if dlOpts.version = plugin.info.version then
          (.error (.duplicatePlugin plugin.id plugin.pluginDir), st1)
        else if dlOpts.pluginZipURL = "" ∧ dlOpts.version = "" then
          (.error (.updateOptionsUnknown pluginID), st1)
        else
          match remove env st1 plugin.id with
          | (.error e, st2) => (.error e, st2)
          | (.ok _, st2) =>
            if dlOpts.pluginZipURL ≠ "" then
              let st3 := logEvent st2 (.getArchiveByURL dlOpts.pluginZipURL)
              match env.getPluginArchiveByURL dlOpts.pluginZipURL opts.grafanaVersion with
              | .error e => (.error e, st3)
              | .ok pluginArchive => installArchive env st3 pluginID opts pluginArchive
            else
              let st3 := logEvent st2 (.getArchive pluginID dlOpts.version)
              match env.getPluginArchive pluginID dlOpts.version opts.grafanaVersion with
              | .error e => (.error e, st3)
              | .ok pluginArchive => installArchive env st3 pluginID opts pluginArchive
  | none => addFresh env st pluginID version opts

/-- PluginManager.Add from store.go: reject a non-empty version that is
not a valid semver expression, then dispatch on whether the plugin is
already registered (and not decommissioned). -/
def add (env : Env) (st : MState) (pluginID version : String)
    (opts : CompatabilityOpts) : Except Err Unit × MState :=
  if version ≠ "" ∧ isSemVerExpr env version = false then
    (.error .invalidVersionFormat, st)
  else addChecked env st pluginID version opts

/-! ### Concrete fixtures used to instantiate the theorems -/

/-- A registered external plugin at version 1.0.0. -/
def extPlugin : Plugin :=
  { id := "grafana-clock-panel", info := { version := "1.0.0" },
    pluginDir := "/var/lib/grafana/plugins/grafana-clock-panel",
    type := .panel, isExternalPlugin := true, isDecommissioned := false }

/-- A registered core (non-external) data source plugin. -/
def corePlugin : Plugin :=
  { id := "prometheus", info := { version := "8.0.0" },
    pluginDir := "/usr/share/grafana/plugins-bundled/prometheus",
    type := .dataSource, isExternalPlugin := false, isDecommissioned := false }

/-- A decommissioned external plugin. -/
def decomPlugin : Plugin :=
  { id := "old-app", info := { version := "0.9.0" },
    pluginDir := "/var/lib/grafana/plugins/old-app",
    type := .app, isExternalPlugin := true, isDecommissioned := true }

/-- A decommissioned core plugin (for the decommission-filter claim). -/
def decomCorePlugin : Plugin :=
  { id := "graphite", info := { version := "8.0.0" },
    pluginDir := "/usr/share/grafana/plugins-bundled/graphite",
    type := .dataSource, isExternalPlugin := false, isDecommissioned := true }

/-- An external plugin whose recorded directory is the parent of the
plugins root (a corrupted or malicious PluginDir value). -/
def roguePlugin : Plugin :=
  { id := "rogue", info := { version := "1.0.0" },
    pluginDir := "/var/lib/grafana",
    type := .app, isExternalPlugin := true, isDecommissioned := false }

/-- Concrete filepath.Rel results for the fixture paths, matching the
Go standard library on these inputs (e.g. Rel("/var/lib/grafana/plugins",
"/var/lib/grafana") = ".."). -/
def relFixture (base targ : String) : Option String :=
  if base = "/var/lib/grafana/plugins" ∧ targ = "/var/lib/grafana/plugins/grafana-clock-panel" then
    some "grafana-clock-panel"
  else if base = "/var/lib/grafana/plugins" ∧ targ = "/var/lib/grafana" then
    some ".."
  else if base = "/var/lib/grafana/plugins" ∧ targ = "/etc/passwd" then
    some "../../../../etc/passwd"
  else none

/-- A baseline environment for the concrete instances; individual
instances override the collaborator results they exercise. -/
def defaultEnv : Env :=
  { pluginsPath := "/var/lib/grafana/plugins"
    semverConstraintOk := fun v => decide (v = "1.0.0" ∨ v = "2.0.0" ∨ v = ">= 1.0.0")
    getPluginDownloadOptions := fun _ _ _ => .error (.external "plugin not found")
    getPluginArchive := fun _ _ _ => .error (.external "plugin not found")
    getPluginArchiveByURL := fun _ _ => .error (.external "download failed")
    fsAdd := fun _ _ _ => .error (.external "extraction failed")
    fsRemove := fun _ => .ok ()
    rel := relFixture
    unregisterAndStopErr := fun _ => none
    loadPlugins := fun _ reg => .ok reg }

def defaultOpts : CompatabilityOpts := { grafanaVersion := "9.0.0" }

/-- State with one external plugin installed. -/
def stExt : MState := { registry := [extPlugin], trace := [] }

/-- State with one core plugin registered. -/
def stCore : MState := { registry := [corePlugin], trace := [] }

/-- State with the decommissioned core plugin registered. -/
def stDecomCore : MState := { registry := [decomCorePlugin], trace := [] }

/-- State with the rogue-directory plugin registered. -/
def stRogue : MState := { registry := [roguePlugin], trace := [] }

/-- A mixed registry for the read-operation instances. -/
def regMixed : List Plugin := [extPlugin, corePlugin, decomPlugin]

/-- Environment whose repository resolves the clock panel to the
already-installed version 1.0.0. -/
def envResolveSame : Env :=
  { defaultEnv with
    getPluginDownloadOptions := fun pid v g =>
      if pid = "grafana-clock-panel" ∧ v = "2.0.0" ∧ g = "9.0.0" then
        .ok { version := "1.0.0", pluginZipURL := "" }
      else .error (.external "plugin not found") }

/-- Environment whose repository resolves the clock panel to 2.0.0 with
a direct download URL; the archive download itself fails (the default
getPluginArchiveByURL error). -/
def envUpdateFetchFails : Env :=
  { defaultEnv with
    getPluginDownloadOptions := fun pid v g =>
      if pid = "grafana-clock-panel" ∧ v = "2.0.0" ∧ g = "9.0.0" then
        .ok { version := "2.0.0", pluginZipURL := "https://grafana.com/dl/clock-2.0.0.zip" }
      else .error (.external "plugin not found") }

/-- Like envUpdateFetchFails, but plugin-directory deletion fails. -/
def envFsRemoveFails : Env :=
  { defaultEnv with
    getPluginDownloadOptions := fun pid v g =>
      if pid = "grafana-clock-panel" ∧ v = "2.0.0" ∧ g = "9.0.0" then
        .ok { version := "2.0.0", pluginZipURL := "https://grafana.com/dl/clock-2.0.0.zip" }
      else .error (.external "plugin not found")
    fsRemove := fun _ => .error (.external "device busy") }

/-- An external plugin whose recorded directory escapes the plugins
root through several parent segments (filepath.Rel starts with "../"). -/
def escapePlugin : Plugin :=
  { id := "escape", info := { version := "1.0.0" },
    pluginDir := "/etc/passwd",
    type := .app, isExternalPlugin := true, isDecommissioned := false }

/-- State with the escaping-directory plugin registered. -/
def stEscape : MState := { registry := [escapePlugin], trace := [] }

/-- Environment whose repository offers an update for the escaping
plugin, so Add reaches its internal Remove call. -/
def envEscapeUpdate : Env :=
  { defaultEnv with
    getPluginDownloadOptions := fun pid v g =>
      if pid = "escape" ∧ v = "2.0.0" ∧ g = "9.0.0" then
        .ok { version := "2.0.0", pluginZipURL := "https://grafana.com/dl/escape-2.0.0.zip" }
      else .error (.external "plugin not found") }

/-- Empty starting state for fresh-install runs. -/
def stEmpty : MState := { registry := [], trace := [] }

/-- Fresh install of "acme-panel" with one declared dependency
"acme-lib"; the dependency download fails. -/
def envDepFetchFails : Env :=
  { defaultEnv with
    getPluginArchive := fun pid v g =>
      if pid = "acme-panel" ∧ v = "" ∧ g = "9.0.0" then .ok { file := "acme-panel.zip" }
      else .error (.external "connection reset")
    fsAdd := fun f pid root =>
      if f = "acme-panel.zip" ∧ pid = "acme-panel" ∧ root = "/var/lib/grafana/plugins" then
        .ok { path := "/var/lib/grafana/plugins/acme-panel",
              dependencies := [{ id := "acme-lib", version := "1.0.0" }] }
      else .error (.external "disk full") }

/-- Fresh install of "acme-panel" with one declared dependency
"acme-lib"; the dependency downloads but its extraction fails. -/
def envDepExtractFails : Env :=
  { defaultEnv with
    getPluginArchive := fun pid v g =>
      if pid = "acme-panel" ∧ v = "" ∧ g = "9.0.0" then .ok { file := "acme-panel.zip" }
      else if pid = "acme-lib" ∧ v = "1.0.0" ∧ g = "9.0.0" then .ok { file := "acme-lib.zip" }
      else .error (.external "plugin not found")
    fsAdd := fun f pid root =>
      if f = "acme-panel.zip" ∧ pid = "acme-panel" ∧ root = "/var/lib/grafana/plugins" then
        .ok { path := "/var/lib/grafana/plugins/acme-panel",
              dependencies := [{ id := "acme-lib", version := "1.0.0" }] }
      else .error (.external "disk full") }

/-! ### Basic lemmas about the registry helpers -/

/-- Helper: a version argument that is empty or parser-accepted passes
the format check at the top of Add. -/
theorem version_check_passes {env : Env} {version : String}
    (hv : version = "" ∨ isSemVerExpr env version = true) :
    ¬(version ≠ "" ∧ isSemVerExpr env version = false) := by
  rintro ⟨hne, hbad⟩
  rcases hv with h | h
  · exact hne h
  · rw [h] at hbad; cases hbad

theorem registryPlugin_id {reg : List Plugin} {pluginID : String} {p : Plugin}
    (h : registryPlugin reg pluginID = some p) : p.id = pluginID := by
  have h' := List.find?_some h
  simpa using h'

theorem mgrPlugin_eq_some {reg : List Plugin} {pluginID : String} {p : Plugin} :
    mgrPlugin reg pluginID = some p ↔
      registryPlugin reg pluginID = some p ∧ p.isDecommissioned = false := by
  unfold mgrPlugin
  cases h : registryPlugin reg pluginID with
  | none => simp
  | some q =>
    cases hq : q.isDecommissioned with
    | true =>
      simp only [hq, if_true]
      constructor
      · intro hc; cases hc
      · rintro ⟨hqp, hd⟩
        injection hqp with hqp
        rw [hqp] at hq
        rw [hq] at hd
        cases hd
    | false =>
      simp only [hq]
      simp only [Bool.false_eq_true, if_false, Option.some_inj]
      constructor
      · rintro rfl; exact ⟨rfl, hq⟩
      · rintro ⟨rfl, _⟩; rfl

theorem registryPlugin_unregister {reg : List Plugin} {pluginID : String} :
    registryPlugin (unregisterReg reg pluginID) pluginID = none := by
  unfold registryPlugin unregisterReg
  rw [List.find?_eq_none]
  intro x hx
  rw [List.mem_filter] at hx
  simpa using hx.2

/-- A successful run of Remove: the guards pass, unregister-and-stop
succeeds and directory deletion succeeds; the registry entry is gone
and the trace records the unregister followed by the deletion. -/
theorem remove_ok (env : Env) (st : MState) (pluginID path : String) (plugin : Plugin)
    (hm : mgrPlugin st.registry pluginID = some plugin)
    (hext : plugin.isExternalPlugin = true)
    (hrel : env.rel env.pluginsPath plugin.pluginDir = some path)
    (hpre : hasPrefix path dotDotSep = false)
    (hunreg : env.unregisterAndStopErr plugin = none)
    (hfsr : env.fsRemove plugin.pluginDir = .ok ()) :
    remove env st pluginID =
      (.ok (), { registry := unregisterReg st.registry plugin.id,
                 trace := st.trace ++ [.unregister plugin.id, .fsRemove plugin.pluginDir] }) := by
  simp [remove, hm, hext, hrel, hpre, hunreg, hfsr, logEvent]

/-- Every plugin type is in the full enumeration. -/
theorem pluginTypes_complete (t : PluginType) : PluginTypes.contains t = true := by
  cases t <;> decide

/-! ### Claims -/

/-- C6: a non-empty version string that the constraint parser rejects
makes Add fail with InvalidVersionFormat with no repository, filesystem
or registry effect (state returned unchanged); and isSemVerExpr on the
empty string is false. -/
theorem c6_invalid_version_rejected (env : Env) (st : MState)
    (pluginID version : String) (opts : CompatabilityOpts)
    (hne : version ≠ "") (hbad : env.semverConstraintOk version = false) :
    add env st pluginID version opts = (.error .invalidVersionFormat, st) ∧
      isSemVerExpr env "" = false := by
  constructor
  · unfold add
    rw [if_pos ⟨hne, by simp [isSemVerExpr, hne, hbad]⟩]
  · simp [isSemVerExpr]

/-- C10: Add with the empty version string skips the version-format
check entirely (it behaves exactly as the post-check body), even though
isSemVerExpr rejects the empty string. -/
theorem c10_empty_version_skips_check (env : Env) (st : MState)
    (pluginID : String) (opts : CompatabilityOpts) :
    add env st pluginID "" opts = addChecked env st pluginID "" opts ∧
      isSemVerExpr env "" = false := by
  constructor
  · unfold add
    rw [if_neg]
    intro hcon
    exact hcon.1 rfl
  · simp [isSemVerExpr]

/-- C7: Plugins with an empty type set returns the DTO projection of
all non-decommissioned plugins (the empty set expands to the full type
enumeration, so it returns everything); with a non-empty set it returns
exactly the non-decommissioned plugins whose type is in the set. -/
theorem c7_plugins_type_filter (reg : List Plugin) (ts : List PluginType) :
    pluginsList reg [] = (availablePlugins reg).map Plugin.toDTO ∧
      (ts ≠ [] →
        pluginsList reg ts =
          ((availablePlugins reg).filter (fun p => ts.contains p.type)).map Plugin.toDTO) := by
  constructor
  · unfold pluginsList
    simp only [List.isEmpty_nil, if_pos]
    congr 1
    apply List.filter_eq_self.mpr
    intro p _
    simpa using pluginTypes_complete p.type
  · intro hts
    cases ts with
    | nil => exact absurd rfl hts
    | cons t ts' => rfl

/-- C7 witness: concrete instance of the non-empty-filter case on a
mixed registry. -/
theorem c7_witness :
    ([PluginType.panel] ≠ ([] : List PluginType)) ∧
      pluginsList regMixed [PluginType.panel] =
        ((availablePlugins regMixed).filter
          (fun p => [PluginType.panel].contains p.type)).map Plugin.toDTO :=
  ⟨by decide, (c7_plugins_type_filter regMixed [PluginType.panel]).2 (by decide)⟩

/-- C6 witness: concrete instance with the malformed version "###". -/
theorem c6_witness :
    ("###" ≠ "") ∧ defaultEnv.semverConstraintOk "###" = false ∧
      add defaultEnv stExt "grafana-clock-panel" "###" defaultOpts =
        (.error .invalidVersionFormat, stExt) :=
  ⟨by decide, by decide,
   (c6_invalid_version_rejected defaultEnv stExt "grafana-clock-panel" "###" defaultOpts
      (by decide) (by decide)).1⟩

/-- C3 (amended): for a registered, non-decommissioned core plugin and
any version argument that passes the version-format check (empty or
parser-accepted), Add fails with InstallCorePlugin and Remove fails
with UninstallCorePlugin, both leaving the state (registry, trace)
unchanged.  A parser-rejected version makes Add fail with
InvalidVersionFormat instead (see the counterexample). -/
theorem c3_core_plugin_guard (env : Env) (st : MState) (pluginID version : String)
    (opts : CompatabilityOpts) (plugin : Plugin)
    (hv : version = "" ∨ isSemVerExpr env version = true)
    (hm : mgrPlugin st.registry pluginID = some plugin)
    (hcore : plugin.isExternalPlugin = false) :
    add env st pluginID version opts = (.error .installCorePlugin, st) ∧
      remove env st pluginID = (.error .uninstallCorePlugin, st) := by
  constructor
  · unfold add
    rw [if_neg (version_check_passes hv)]
    unfold addChecked
    simp [hm, hcore]
  · unfold remove
    simp [hm, hcore]

/-- C3 counterexample: a registered, non-decommissioned core plugin
called with the parser-rejected version "###": Add fails with
InvalidVersionFormat, not with InstallCorePlugin. -/
theorem c3_counterexample :
    mgrPlugin stCore.registry "prometheus" = some corePlugin ∧
      corePlugin.isExternalPlugin = false ∧
      corePlugin.isDecommissioned = false ∧
      add defaultEnv stCore "prometheus" "###" defaultOpts =
        (.error .invalidVersionFormat, stCore) ∧
      (add defaultEnv stCore "prometheus" "###" defaultOpts).1 ≠
        .error .installCorePlugin := by
  refine ⟨rfl, rfl, rfl, rfl, ?_⟩
  intro h
  rw [show (add defaultEnv stCore "prometheus" "###" defaultOpts).1 =
        .error .invalidVersionFormat from rfl] at h
  injection h with h
  cases h

/-- C3 witness: concrete instance of the amended guard with the empty
version argument. -/
theorem c3_witness :
    add defaultEnv stCore "prometheus" "" defaultOpts =
      (.error .installCorePlugin, stCore) ∧
    remove defaultEnv stCore "prometheus" = (.error .uninstallCorePlugin, stCore) :=
  c3_core_plugin_guard defaultEnv stCore "prometheus" "" defaultOpts corePlugin
    (Or.inl rfl) rfl rfl

/-- C5: Add on a registered, non-decommissioned external plugin fails
with DuplicatePlugin carrying the plugin id and the existing directory,
leaving the registry unchanged, in both duplicate cases: the requested
version equals the installed version, or the repository-resolved
version equals the installed version (the trace then records only the
download-options query). -/
theorem c5_duplicate_version_rejected (env : Env) (st : MState)
    (pluginID version : String) (opts : CompatabilityOpts) (plugin : Plugin)
    (hv : version = "" ∨ isSemVerExpr env version = true)
    (hm : mgrPlugin st.registry pluginID = some plugin)
    (hext : plugin.isExternalPlugin = true) :
    (plugin.info.version = version →
      add env st pluginID version opts =
        (.error (.duplicatePlugin plugin.id plugin.pluginDir), st)) ∧
    (∀ dlOpts : PluginDownloadOptions, plugin.info.version ≠ version →
      env.getPluginDownloadOptions pluginID version opts.grafanaVersion = .ok dlOpts →
      dlOpts.version = plugin.info.version →
      add env st pluginID version opts =
        (.error (.duplicatePlugin plugin.id plugin.pluginDir),
          logEvent st (.getDownloadOptions pluginID version))) := by
  constructor
  · intro hdup
    unfold add
    rw [if_neg (version_check_passes hv)]
    unfold addChecked
    simp [hm, hext, hdup]
  · intro dlOpts hne hdl hres
    unfold add
    rw [if_neg (version_check_passes hv)]
    unfold addChecked
    simp [hm, hext, hne, hdl, hres, logEvent]

/-- C5 witness: both duplicate cases on the installed clock panel, the
second via a repository that resolves "2.0.0" to the installed
"1.0.0". -/
theorem c5_witness :
    add envResolveSame stExt "grafana-clock-panel" "1.0.0" defaultOpts =
      (.error (.duplicatePlugin "grafana-clock-panel"
        "/var/lib/grafana/plugins/grafana-clock-panel"), stExt) ∧
    add envResolveSame stExt "grafana-clock-panel" "2.0.0" defaultOpts =
      (.error (.duplicatePlugin "grafana-clock-panel"
        "/var/lib/grafana/plugins/grafana-clock-panel"),
        logEvent stExt (.getDownloadOptions "grafana-clock-panel" "2.0.0")) :=
  ⟨(c5_duplicate_version_rejected envResolveSame stExt "grafana-clock-panel" "1.0.0"
      defaultOpts extPlugin (Or.inr (by decide)) rfl rfl).1 rfl,
   (c5_duplicate_version_rejected envResolveSame stExt "grafana-clock-panel" "2.0.0"
      defaultOpts extPlugin (Or.inr (by decide)) rfl rfl).2
      { version := "1.0.0", pluginZipURL := "" } (by decide) rfl rfl⟩

/-- C8: when the registry entry for the requested id is decommissioned
(here: a decommissioned core plugin), the decommission filter in the
existence lookup makes the plugin appear absent, so Add (with a version
passing the format check) does not hit the core-plugin guard and runs
the fresh-install path (fetch by id and version). -/
theorem c8_decommissioned_core_fresh_path (env : Env) (st : MState)
    (pluginID version : String) (opts : CompatabilityOpts) (p : Plugin)
    (hv : version = "" ∨ isSemVerExpr env version = true)
    (hr : registryPlugin st.registry pluginID = some p)
    (hdec : p.isDecommissioned = true) :
    mgrPlugin st.registry pluginID = none ∧
      add env st pluginID version opts = addFresh env st pluginID version opts := by
  have hnone : mgrPlugin st.registry pluginID = none := by
    unfold mgrPlugin
    rw [hr]
    simp [hdec]
  refine ⟨hnone, ?_⟩
  unfold add
  rw [if_neg (version_check_passes hv)]
  unfold addChecked
  simp [hnone]

/-- C8 witness: the decommissioned core plugin "graphite"; Add takes
the fresh-install path. -/
theorem c8_witness :
    decomCorePlugin.isExternalPlugin = false ∧
      decomCorePlugin.isDecommissioned = true ∧
      mgrPlugin stDecomCore.registry "graphite" = none ∧
      add defaultEnv stDecomCore "graphite" "" defaultOpts =
        addFresh defaultEnv stDecomCore "graphite" "" defaultOpts :=
  ⟨rfl, rfl,
   (c8_decommissioned_core_fresh_path defaultEnv stDecomCore "graphite" "" defaultOpts
      decomCorePlugin (Or.inl rfl) rfl rfl).1,
   (c8_decommissioned_core_fresh_path defaultEnv stDecomCore "graphite" "" defaultOpts
      decomCorePlugin (Or.inl rfl) rfl rfl).2⟩

/-- C2 (code-bug exhibit): a registered, non-decommissioned external
plugin whose directory is the parent of the plugins root.  filepath.Rel
yields the bare "..", which is a parent-directory traversal segment but
does not start with ".."+separator, so the prefix check passes: Remove
does not fail with the outside-plugin-dir error — it unregisters the
plugin and calls directory deletion on "/var/lib/grafana", a directory
outside the plugins root, contradicting the in-code comment that the
check ensures only plugins inside the configured plugins directory are
removed. -/
theorem c2_bare_dotdot_escapes :
    mgrPlugin stRogue.registry "rogue" = some roguePlugin ∧
      roguePlugin.isExternalPlugin = true ∧
      defaultEnv.rel defaultEnv.pluginsPath roguePlugin.pluginDir = some ".." ∧
      hasPrefix ".." dotDotSep = false ∧
      remove defaultEnv stRogue "rogue" =
        (.ok (), { registry := [],
                   trace := [.unregister "rogue", .fsRemove "/var/lib/grafana"] }) :=
  ⟨rfl, rfl, rfl, rfl, rfl⟩

/-- C1: on Add's update path for a registered, non-decommissioned
external plugin being updated to a different resolved version, the
existing installation is removed — unregistered and its directory
deleted — strictly before the new archive fetch, as the recorded trace
shows; consequently, when the archive fetch fails (either by direct
URL or by id and resolved version), Add returns that error and the
plugin is no longer registered (uninstalled, not reverted). -/
theorem c1_update_removes_before_fetch (env : Env) (st : MState)
    (pluginID version : String) (opts : CompatabilityOpts) (plugin : Plugin)
    (dlOpts : PluginDownloadOptions) (relPath : String) (e : Err)
    (hv : version = "" ∨ isSemVerExpr env version = true)
    (hm : mgrPlugin st.registry pluginID = some plugin)
    (hext : plugin.isExternalPlugin = true)
    (hne : plugin.info.version ≠ version)
    (hdl : env.getPluginDownloadOptions pluginID version opts.grafanaVersion = .ok dlOpts)
    (hres : dlOpts.version ≠ plugin.info.version)
    (hrel : env.rel env.pluginsPath plugin.pluginDir = some relPath)
    (hpre : hasPrefix relPath dotDotSep = false)
    (hunreg : env.unregisterAndStopErr plugin = none)
    (hfsr : env.fsRemove plugin.pluginDir = .ok ()) :
    (dlOpts.pluginZipURL ≠ "" →
      env.getPluginArchiveByURL dlOpts.pluginZipURL opts.grafanaVersion = .error e →
      add env st pluginID version opts =
        (.error e,
          { registry := unregisterReg st.registry plugin.id,
            trace := st.trace ++
              [.getDownloadOptions pluginID version, .unregister plugin.id,
               .fsRemove plugin.pluginDir, .getArchiveByURL dlOpts.pluginZipURL] })) ∧
    (dlOpts.pluginZipURL = "" → dlOpts.version ≠ "" →
      env.getPluginArchive pluginID dlOpts.version opts.grafanaVersion = .error e →
      add env st pluginID version opts =
        (.error e,
          { registry := unregisterReg st.registry plugin.id,
            trace := st.trace ++
              [.getDownloadOptions pluginID version, .unregister plugin.id,
               .fsRemove plugin.pluginDir, .getArchive pluginID dlOpts.version] })) ∧
    registryPlugin (unregisterReg st.registry plugin.id) pluginID = none := by
  have hid : plugin.id = pluginID := registryPlugin_id (mgrPlugin_eq_some.mp hm).1
  have hm1 : mgrPlugin st.registry plugin.id = some plugin := by rw [hid]; exact hm
  have hrm := remove_ok env (logEvent st (.getDownloadOptions pluginID version))
      plugin.id relPath plugin hm1 hext hrel hpre hunreg hfsr
  refine ⟨?_, ?_, ?_⟩
  · intro hurl hfetch
    have hnz : ¬(dlOpts.pluginZipURL = "" ∧ dlOpts.version = "") := fun hc => hurl hc.1
    unfold add
    rw [if_neg (version_check_passes hv)]
    unfold addChecked
    simp only [hm, hne, hdl, hres, hnz]
    rw [hrm]
    simp [hext, hurl, hfetch, logEvent, List.append_assoc]
  · intro hurl hver hfetch
    have hnz : ¬(dlOpts.pluginZipURL = "" ∧ dlOpts.version = "") := fun hc => hver hc.2
    unfold add
    rw [if_neg (version_check_passes hv)]
    unfold addChecked
    simp only [hm, hne, hdl, hres, hnz]
    rw [hrm]
    simp [hext, hurl, hfetch, logEvent, List.append_assoc]
  · rw [hid]
    exact registryPlugin_unregister

/-- C1 witness: updating the installed clock panel 1.0.0 to 2.0.0; the
repository resolves a direct URL, removal succeeds, the download
fails, and the plugin ends up unregistered. -/
theorem c1_witness :
    add envUpdateFetchFails stExt "grafana-clock-panel" "2.0.0" defaultOpts =
      (.error (.external "download failed"),
        { registry := unregisterReg stExt.registry extPlugin.id,
          trace := stExt.trace ++
            [.getDownloadOptions "grafana-clock-panel" "2.0.0",
             .unregister extPlugin.id,
             .fsRemove extPlugin.pluginDir,
             .getArchiveByURL "https://grafana.com/dl/clock-2.0.0.zip"] }) :=
  (c1_update_removes_before_fetch envUpdateFetchFails stExt "grafana-clock-panel" "2.0.0"
      defaultOpts extPlugin
      { version := "2.0.0", pluginZipURL := "https://grafana.com/dl/clock-2.0.0.zip" }
      "grafana-clock-panel" (.external "download failed")
      (Or.inr (by decide)) rfl rfl (by decide) rfl (by decide) rfl (by decide)
      rfl rfl).1 (by decide) rfl

/-- C9 (amended): on Add's update path, when the internal Remove fails
before unregistering — filepath.Rel errors, or the relative path
starts with "../" (the outside-plugin-dir error), or
unregister-and-stop itself fails — Add returns that error immediately:
no archive fetch and no extraction happen, the registry is unchanged
and the plugin remains registered.  (If Remove instead fails at the
final directory deletion, the plugin has already been unregistered;
see the counterexample.) -/
theorem c9_remove_failure_aborts_update (env : Env) (st : MState)
    (pluginID version : String) (opts : CompatabilityOpts) (plugin : Plugin)
    (dlOpts : PluginDownloadOptions)
    (hv : version = "" ∨ isSemVerExpr env version = true)
    (hm : mgrPlugin st.registry pluginID = some plugin)
    (hext : plugin.isExternalPlugin = true)
    (hne : plugin.info.version ≠ version)
    (hdl : env.getPluginDownloadOptions pluginID version opts.grafanaVersion = .ok dlOpts)
    (hres : dlOpts.version ≠ plugin.info.version)
    (hnz : ¬(dlOpts.pluginZipURL = "" ∧ dlOpts.version = "")) :
    (env.rel env.pluginsPath plugin.pluginDir = none →
      add env st pluginID version opts =
        (.error .uninstallOutsideOfPluginDir,
          logEvent st (.getDownloadOptions pluginID version))) ∧
    (∀ relPath, env.rel env.pluginsPath plugin.pluginDir = some relPath →
      hasPrefix relPath dotDotSep = true →
      add env st pluginID version opts =
        (.error .uninstallOutsideOfPluginDir,
          logEvent st (.getDownloadOptions pluginID version))) ∧
    (∀ e, env.unregisterAndStopErr plugin = some e →
      (∀ relPath, env.rel env.pluginsPath plugin.pluginDir = some relPath →
        hasPrefix relPath dotDotSep = false →
        add env st pluginID version opts =
          (.error e,
            { registry := st.registry,
              trace := st.trace ++
                [.getDownloadOptions pluginID version, .unregister plugin.id] }))) := by
  have hid : plugin.id = pluginID := registryPlugin_id (mgrPlugin_eq_some.mp hm).1
  have hm1 : mgrPlugin st.registry plugin.id = some plugin := by rw [hid]; exact hm
  refine ⟨?_, ?_, ?_⟩
  · intro hrel
    unfold add
    rw [if_neg (version_check_passes hv)]
    unfold addChecked
    simp only [hm, hne, hdl, hres, hnz]
    unfold remove
    simp [hm1, hext, hrel, logEvent]
  · intro relPath hrel hpre
    unfold add
    rw [if_neg (version_check_passes hv)]
    unfold addChecked
    simp only [hm, hne, hdl, hres, hnz]
    unfold remove
    simp [hm1, hext, hrel, hpre, logEvent]
  · intro e hunreg relPath hrel hpre
    unfold add
    rw [if_neg (version_check_passes hv)]
    unfold addChecked
    simp only [hm, hne, hdl, hres, hnz]
    unfold remove
    simp [hm1, hext, hrel, hpre, hunreg, logEvent, List.append_assoc]

/-- C9 counterexample: Remove fails at the final directory deletion
(after unregistering), so Add returns that error with the plugin
already unregistered — the claim that the existing installation
remains registered whenever the internal Remove fails is false. -/
theorem c9_counterexample :
    add envFsRemoveFails stExt "grafana-clock-panel" "2.0.0" defaultOpts =
      (.error (.external "device busy"),
        { registry := [],
          trace := [.getDownloadOptions "grafana-clock-panel" "2.0.0",
                    .unregister "grafana-clock-panel",
                    .fsRemove "/var/lib/grafana/plugins/grafana-clock-panel"] }) ∧
      mgrPlugin (add envFsRemoveFails stExt "grafana-clock-panel" "2.0.0" defaultOpts).2.registry
        "grafana-clock-panel" = none :=
  ⟨rfl, rfl⟩

/-- C9 witness: the escaping-directory plugin: the repository offers an
update, the internal Remove hits the outside-plugin-dir guard, and Add
aborts with the plugin still registered and no fetch performed. -/
theorem c9_witness :
    add envEscapeUpdate stEscape "escape" "2.0.0" defaultOpts =
      (.error .uninstallOutsideOfPluginDir,
        logEvent stEscape (.getDownloadOptions "escape" "2.0.0")) :=
  (c9_remove_failure_aborts_update envEscapeUpdate stEscape "escape" "2.0.0" defaultOpts
      escapePlugin
      { version := "2.0.0", pluginZipURL := "https://grafana.com/dl/escape-2.0.0.zip" }
      (Or.inr (by decide)) rfl rfl (by decide) rfl (by decide) (by decide)).2.1
      "../../../../etc/passwd" rfl (by decide)

/-- The dependency loop never mutates the registry and never records a
directory deletion, wherever it stops. -/
theorem fetchDeps_preserves (env : Env) (opts : CompatabilityOpts) :
    ∀ (deps : List Dependency) (st : MState) (acc : List String),
      (fetchDeps env opts st deps acc).2.registry = st.registry ∧
        (fetchDeps env opts st deps acc).2.trace.filter Event.isFsRemove =
          st.trace.filter Event.isFsRemove := by
  intro deps
  induction deps with
  | nil => intro st acc; exact ⟨rfl, rfl⟩
  | cons dep rest ih =>
    intro st acc
    unfold fetchDeps
    cases hfetch : env.getPluginArchive dep.id dep.version opts.grafanaVersion with
    | error e => simp [hfetch, logEvent, List.filter_append, Event.isFsRemove]
    | ok d =>
      cases hfs : env.fsAdd d.file dep.id env.pluginsPath with
      | error e => simp [hfetch, hfs, logEvent, List.filter_append, Event.isFsRemove]
      | ok depArchive =>
        have h := ih
          (logEvent (logEvent st (.getArchive dep.id dep.version)) (.fsAdd dep.id))
          (acc ++ [depArchive.path])
        simp only [hfetch, hfs]
        simp [logEvent, List.filter_append, List.append_assoc, Event.isFsRemove] at h ⊢
        exact h

/-- Skipping an initial segment of dependencies that all download and
extract successfully: the loop reaches the tail with the registry
untouched and no deletion recorded. -/
theorem fetchDeps_skip (env : Env) (opts : CompatabilityOpts) :
    ∀ (pre : List Dependency) (st : MState) (acc : List String),
      (∀ d ∈ pre, ∃ a x,
        env.getPluginArchive d.id d.version opts.grafanaVersion = .ok a ∧
          env.fsAdd a.file d.id env.pluginsPath = .ok x) →
      ∀ rest : List Dependency, ∃ st' acc',
        fetchDeps env opts st (pre ++ rest) acc = fetchDeps env opts st' rest acc' ∧
          st'.registry = st.registry ∧
          st'.trace.filter Event.isFsRemove = st.trace.filter Event.isFsRemove := by
  intro pre
  induction pre with
  | nil => intro st acc _ rest; exact ⟨st, acc, rfl, rfl, rfl⟩
  | cons d pre' ih =>
    intro st acc hok rest
    obtain ⟨a, x, ha, hx⟩ := hok d (by simp)
    have hok' : ∀ d' ∈ pre', ∃ a' x',
        env.getPluginArchive d'.id d'.version opts.grafanaVersion = .ok a' ∧
          env.fsAdd a'.file d'.id env.pluginsPath = .ok x' :=
      fun d' hd' => hok d' (by simp [hd'])
    obtain ⟨st', acc', heq, hreg, htr⟩ :=
      ih (logEvent (logEvent st (.getArchive d.id d.version)) (.fsAdd d.id))
        (acc ++ [x.path]) hok' rest
    refine ⟨st', acc', ?_, ?_, ?_⟩
    · rw [List.cons_append]
      conv_lhs => unfold fetchDeps
      simp only [ha, hx]
      exact heq
    · rw [hreg]; rfl
    · rw [htr]
      simp [logEvent, List.filter_append, Event.isFsRemove]

/-- One step of the dependency loop when the head dependency's download
fails: the wrapped error naming the dependency is returned. -/
theorem fetchDeps_head_fetch_err {env : Env} {opts : CompatabilityOpts} {st : MState}
    {dep : Dependency} {rest : List Dependency} {acc : List String} {e : Err}
    (h : env.getPluginArchive dep.id dep.version opts.grafanaVersion = .error e) :
    fetchDeps env opts st (dep :: rest) acc =
      (.error (.wrapped ("failed to download plugin " ++ dep.id ++ " from repository") e),
        logEvent st (.getArchive dep.id dep.version)) := by
  unfold fetchDeps
  simp [h]

/-- One step of the dependency loop when the head dependency downloads
but its extraction fails: the extraction error is returned as-is. -/
theorem fetchDeps_head_extract_err {env : Env} {opts : CompatabilityOpts} {st : MState}
    {dep : Dependency} {rest : List Dependency} {acc : List String}
    {a : PluginArchive} {e : Err}
    (ha : env.getPluginArchive dep.id dep.version opts.grafanaVersion = .ok a)
    (he : env.fsAdd a.file dep.id env.pluginsPath = .error e) :
    fetchDeps env opts st (dep :: rest) acc =
      (.error e, logEvent (logEvent st (.getArchive dep.id dep.version)) (.fsAdd dep.id)) := by
  unfold fetchDeps
  simp [ha, he]

/-- C4 (amended): during Add (a fresh-install run with a successfully
extracted primary archive), any failure while fetching or extracting a
declared dependency aborts the whole operation — the registry is left
untouched and no directory deletion (rollback) is ever recorded.  A
dependency download failure surfaces as a wrapped error naming the
failed dependency; a dependency extraction failure surfaces the
extraction error unchanged, not wrapped. -/
theorem c4_dependency_failure_aborts (env : Env) (st : MState)
    (pluginID version : String) (opts : CompatabilityOpts)
    (archive : PluginArchive) (extracted : ExtractedArchive)
    (pre : List Dependency) (dep : Dependency) (rest : List Dependency) (e : Err)
    (hv : version = "" ∨ isSemVerExpr env version = true)
    (hnone : mgrPlugin st.registry pluginID = none)
    (harch : env.getPluginArchive pluginID version opts.grafanaVersion = .ok archive)
    (hfs : env.fsAdd archive.file pluginID env.pluginsPath = .ok extracted)
    (hdeps : extracted.dependencies = pre ++ dep :: rest)
    (hpre : ∀ d ∈ pre, ∃ a x,
      env.getPluginArchive d.id d.version opts.grafanaVersion = .ok a ∧
        env.fsAdd a.file d.id env.pluginsPath = .ok x) :
    (env.getPluginArchive dep.id dep.version opts.grafanaVersion = .error e →
      (add env st pluginID version opts).1 =
        .error (.wrapped ("failed to download plugin " ++ dep.id ++ " from repository") e) ∧
      (add env st pluginID version opts).2.registry = st.registry ∧
      (add env st pluginID version opts).2.trace.filter Event.isFsRemove =
        st.trace.filter Event.isFsRemove) ∧
    (∀ a, env.getPluginArchive dep.id dep.version opts.grafanaVersion = .ok a →
      env.fsAdd a.file dep.id env.pluginsPath = .error e →
      (add env st pluginID version opts).1 = .error e ∧
      (add env st pluginID version opts).2.registry = st.registry ∧
      (add env st pluginID version opts).2.trace.filter Event.isFsRemove =
        st.trace.filter Event.isFsRemove) := by
  have hadd : add env st pluginID version opts =
      installArchive env (logEvent st (.getArchive pluginID version)) pluginID opts archive := by
    unfold add
    rw [if_neg (version_check_passes hv)]
    unfold addChecked
    simp only [hnone]
    unfold addFresh
    simp [harch]
  obtain ⟨st', acc', hskip, hreg', htr'⟩ :=
    fetchDeps_skip env opts pre
      (logEvent (logEvent st (.getArchive pluginID version)) (.fsAdd pluginID))
      [extracted.path] hpre (dep :: rest)
  have hst'reg : st'.registry = st.registry := by
    rw [hreg']; rfl
  have hst'tr : st'.trace.filter Event.isFsRemove = st.trace.filter Event.isFsRemove := by
    rw [htr']
    simp [logEvent, List.filter_append, Event.isFsRemove]
  constructor
  · intro hfetch
    have hrun : add env st pluginID version opts =
        (.error (.wrapped ("failed to download plugin " ++ dep.id ++ " from repository") e),
          logEvent st' (.getArchive dep.id dep.version)) := by
      rw [hadd]
      unfold installArchive
      simp only [hfs, hdeps]
      rw [hskip, fetchDeps_head_fetch_err hfetch]
    rw [hrun]
    refine ⟨rfl, hst'reg, ?_⟩
    rw [← hst'tr]
    simp [logEvent, List.filter_append, Event.isFsRemove]
  · intro a hfetch hx
    have hrun : add env st pluginID version opts =
        (.error e,
          logEvent (logEvent st' (.getArchive dep.id dep.version)) (.fsAdd dep.id)) := by
      rw [hadd]
      unfold installArchive
      simp only [hfs, hdeps]
      rw [hskip, fetchDeps_head_extract_err hfetch hx]
    rw [hrun]
    refine ⟨rfl, hst'reg, ?_⟩
    rw [← hst'tr]
    simp [logEvent, List.filter_append, Event.isFsRemove]

/-- C4 counterexample: the dependency "acme-lib" downloads but its
extraction fails with "disk full"; Add surfaces exactly that raw error,
not a wrapped error naming the dependency — so the claim that every
dependency fetch-or-extract failure surfaces a wrapped error naming the
dependency is false. -/
theorem c4_counterexample :
    (add envDepExtractFails stEmpty "acme-panel" "" defaultOpts).1 =
      .error (.external "disk full") ∧
      (add envDepExtractFails stEmpty "acme-panel" "" defaultOpts).1 ≠
        .error (.wrapped "failed to download plugin acme-lib from repository"
          (.external "disk full")) := by
  refine ⟨rfl, ?_⟩
  intro h
  rw [show (add envDepExtractFails stEmpty "acme-panel" "" defaultOpts).1 =
        .error (.external "disk full") from rfl] at h
  injection h with h
  exact Err.noConfusion h

/-- C4 witness: the dependency "acme-lib" fails to download; Add
surfaces the wrapped error naming it. -/
theorem c4_witness :
    (add envDepFetchFails stEmpty "acme-panel" "" defaultOpts).1 =
      .error (.wrapped "failed to download plugin acme-lib from repository"
        (.external "connection reset")) :=
  ((c4_dependency_failure_aborts envDepFetchFails stEmpty "acme-panel" "" defaultOpts
      { file := "acme-panel.zip" }
      { path := "/var/lib/grafana/plugins/acme-panel",
        dependencies := [{ id := "acme-lib", version := "1.0.0" }] }
      [] { id := "acme-lib", version := "1.0.0" } [] (.external "connection reset")
      (Or.inl rfl) rfl rfl rfl rfl (by simp)).1 rfl).1

end PluginManager
